import Mathlib

/-!
Shallow embedding of the state-propagation core of the xComfort bridge
integration: the latest-value state cell, the per-device-type payload
reducers (Light, Shade, Heater, RcTouch, Rocker, Appliance,
DoorWindowSensor), the rocker companion-sensor correlation resolver, and
the heater staleness watchdog with its energy-integration helper.

Python floats that carry power, temperature or time values are modelled
as rationals; payload dictionaries are modelled as structures of
optional recognized fields (a key absent from the dictionary is `none`);
code paths that can raise a Python exception return `Except`.
-/

namespace XComfort

/-- `mergeOpt new old`: dictionary-update semantics for one recognized
key, the new payload's value wins when the key is present. -/
def mergeOpt {α : Type} (new old : Option α) : Option α :=
  match new with
  | some v => some v
  | none => old

/-! ## StateCell (device_base.py / rx BehaviorSubject)

Modelled from the spec: `BridgeDevice.state` is an `rx.subject.BehaviorSubject`,
whose implementation is an external library dependency not present in the
repository; the cell is modelled from the spec's StateCell contract
(subscribe replays the stored value when present, then adds the handle to
the live list; emit stores the value and synchronously invokes all current
subscribers in subscription order). -/

structure StateCell (α : Type) where
  value : Option α
  subs : List Nat
deriving Repr

def StateCell.empty {α : Type} : StateCell α := ⟨none, []⟩

/-- Subscribe a callback handle: replay the stored value to the new
subscriber when one is present, then append the handle to the live list.
Returns the new cell and the list of (subscriber, value) invocations
performed during the call. -/
def StateCell.subscribeCell {α : Type} (c : StateCell α) (sid : Nat) :
    StateCell α × List (Nat × α) :=
  (⟨c.value, c.subs ++ [sid]⟩,
   match c.value with
   | some v => [(sid, v)]
   | none => [])

/-- Emit a value: store it and invoke every current subscriber with it,
in subscription order. -/
def StateCell.emitCell {α : Type} (c : StateCell α) (v : α) :
    StateCell α × List (Nat × α) :=
  (⟨some v, c.subs⟩, c.subs.map (fun s => (s, v)))

/-! ## Shade reducer (device_shade.py, device_states.py ShadeState) -/

/-- The recognized fields of a shade state-update payload
(`curstate`, `shSafety`, `shPos`). -/
structure ShadePayload where
  curstate : Option Int
  shSafety : Option Int
  shPos : Option Int
deriving Repr, DecidableEq

def ShadePayload.empty : ShadePayload := ⟨none, none, none⟩

/-- `raw.update(payload)` restricted to the recognized keys. -/
def ShadePayload.rawUpdate (old new : ShadePayload) : ShadePayload :=
  ⟨mergeOpt new.curstate old.curstate,
   mergeOpt new.shSafety old.shSafety,
   mergeOpt new.shPos old.shPos⟩

/-- ShadeState: the running accumulator a Shade device keeps across
partial payloads. -/
structure ShadeState where
  raw : ShadePayload
  current_state : Option Int
  is_safety_enabled : Option Bool
  position : Option Int
deriving Repr, DecidableEq

def ShadeState.init : ShadeState := ⟨ShadePayload.empty, none, none, none⟩

/-- ShadeState.updateFromPartialStateUpdate: merge one partial payload
into the accumulator; a field the payload omits keeps its prior value. -/
def ShadeState.updateFromPartialStateUpdate (st : ShadeState) (p : ShadePayload) :
    ShadeState :=
  { raw := st.raw.rawUpdate p
    current_state :=
      match p.curstate with
      | some c => some c
      | none => st.current_state
    is_safety_enabled :=
      match p.shSafety with
      | some s => some (s ≠ 0)
      | none => st.is_safety_enabled
    position :=
      match p.shPos with
      | some pos => some pos
      | none => st.position }

/-- ShadeState.is_closed: `None` when the position is unknown or strictly
between 0 and 100, else whether the position is exactly 100. -/
def ShadeState.isClosed (st : ShadeState) : Option Bool :=
  match st.position with
  | none => none
  | some pos => if 0 < pos ∧ pos < 100 then none else some (pos = 100)

/-! ## Light reducer (device_light.py) -/

/-- The recognized fields of a light state-update payload. -/
structure LightPayload where
  switch : Option Bool
  power : Option ℚ
  dimmvalue : Option Int
deriving Repr, DecidableEq

def LightPayload.empty : LightPayload := ⟨none, none, none⟩

def LightPayload.rawUpdate (old new : LightPayload) : LightPayload :=
  ⟨mergeOpt new.switch old.switch,
   mergeOpt new.power old.power,
   mergeOpt new.dimmvalue old.dimmvalue⟩

structure LightState where
  switch : Bool
  dimmvalue : Int
  power : Option ℚ
  raw : LightPayload
deriving Repr, DecidableEq

/-- Light.interpret_dimmvalue_from_payload: non-dimmable fixtures are
pinned to 99; switching off retains the prior dim value (99 when no prior
state); switching on takes the payload's dim value, defaulting to 99. -/
def Light.interpretDimmvalueFromPayload (dimmable : Bool)
    (prevState : Option LightState) (switch : Bool) (p : LightPayload) : Int :=
  if ¬dimmable then 99
  else if ¬switch then
    match prevState with
    | some st => st.dimmvalue
    | none => 99
  else p.dimmvalue.getD 99

/-- Light.handle_state: `none` when the payload carries none of
switch/power/dimmvalue (ignored, nothing emitted); otherwise the freshly
constructed LightState that is emitted. -/
def Light.handleState (dimmable : Bool) (prevState : Option LightState)
    (p : LightPayload) : Option LightState :=
  let prevPower : Option ℚ :=
    match prevState with
    | some st => st.power
    | none => none
  let mergedRaw :=
    (match prevState with
     | some st => st.raw
     | none => LightPayload.empty).rawUpdate p
  if p.switch = none ∧ p.power = none ∧ p.dimmvalue = none then none
  else
    let switch := p.switch.getD
      (match prevState with
       | some st => st.switch
       | none => false)
    let dimmvalue := Light.interpretDimmvalueFromPayload dimmable prevState switch p
    let power : Option ℚ :=
      match p.power with
      | some q => some q
      | none => if (¬switch) ∨ dimmvalue = 0 then some 0 else prevPower
    some ⟨switch, dimmvalue, power, mergedRaw⟩

/-! ## Info-array parsing (device_climate.py, device_rocker.py)

A payload's `info` entry carries a code string (`text`) and a value
string; the reducers call Python's `float` on the value. A value string
either parses to a number or does not; `InfoVal.num q` stands for a
non-empty numeric string with value `q`, `InfoVal.nonNum s` for a string
`s` that `float` rejects with a ValueError. -/

inductive InfoVal where
  | num (q : ℚ)
  | nonNum (s : String)
deriving Repr, DecidableEq

/-- Python `float` applied to an info value string: the parsed number, or
a raised ValueError. -/
def pyFloat : InfoVal → Except Unit ℚ
  | InfoVal.num q => Except.ok q
  | InfoVal.nonNum _ => Except.error ()

/-- Python truthiness of the value string (`if not value_str: continue`):
only the empty string among our modelled values is falsy. -/
def InfoVal.isFalsy : InfoVal → Bool
  | InfoVal.num _ => false
  | InfoVal.nonNum s => s == ""

structure InfoEntry where
  text : String
  value : InfoVal
deriving Repr, DecidableEq

/-- Modelled from the spec: the numeric info codes live in a constants
module that is not part of the given sources; the glossary and the
reducers only need them as distinct opaque strings (the rocker companion
codes 1222/1223 are documented in device_rocker.py itself). -/
def DEVICE_TEMPERATURE_code : String := "4097"

/-- Modelled from the spec: legacy heating-demand (dimm value) info code. -/
def DIMM_VALUE_code : String := "4099"

/-- Modelled from the spec: ambient temperature info code used by RcTouch. -/
def AMBIENT_TEMPERATURE_code : String := "4101"

/-- Modelled from the spec: humidity info code used by RcTouch. -/
def HUMIDITY_code : String := "4102"

/-! ## Heater reducer (device_climate.py Heater.handle_state) -/

/-- The recognized fields of a heater state-update payload. -/
structure HeaterPayload where
  info : Option (List InfoEntry)
  dimmvalue : Option ℚ
  power : Option ℚ
deriving Repr, DecidableEq

structure HeaterState where
  device_temperature : Option ℚ
  heating_demand : Option ℚ
  power : Option ℚ
deriving Repr, DecidableEq

/-- The `info`-array scan of Heater.handle_state: fold over the entries,
calling `float` on the value of every entry whose code matches the device
temperature or the legacy dimm-value code; a ValueError propagates. -/
def Heater.scanInfo (entries : List InfoEntry)
    (acc : Option ℚ × Option ℚ) : Except Unit (Option ℚ × Option ℚ) :=
  match entries with
  | [] => Except.ok acc
  | e :: rest =>
    if e.text = DEVICE_TEMPERATURE_code then
      match pyFloat e.value with
      | Except.ok q => Heater.scanInfo rest (some q, acc.2)
      | Except.error u => Except.error u
    else if e.text = DIMM_VALUE_code then
      match pyFloat e.value with
      | Except.ok q => Heater.scanInfo rest (acc.1, some q)
      | Except.error u => Except.error u
    else Heater.scanInfo rest acc

/-- Heater.handle_state: field-fresh reduction of one payload. Returns
the emitted snapshot (`some st`) when at least one of the three target
fields resolved from this payload, `none` when nothing is emitted, and
an error when `float` raises on a recognized info value. -/
def Heater.handleState (p : HeaterPayload) : Except Unit (Option HeaterState) :=
  match Heater.scanInfo (p.info.getD []) (none, none) with
  | Except.error u => Except.error u
  | Except.ok (device_temperature, infoDemand) =>
    let heating_demand :=
      match p.dimmvalue with
      | some d => some d
      | none => infoDemand
    let power := p.power
    if device_temperature ≠ none ∨ heating_demand ≠ none ∨ power ≠ none then
      Except.ok (some ⟨device_temperature, heating_demand, power⟩)
    else Except.ok none

/-! ## RcTouch reducer (device_climate.py RcTouch.handle_state) -/

structure RcTouchState where
  temperature : ℚ
  humidity : ℚ
deriving Repr, DecidableEq

/-- The `info`-array scan of RcTouch.handle_state: `float` is called on
every entry matching the ambient-temperature or humidity code, with no
exception handler. -/
def RcTouch.scanInfo (entries : List InfoEntry)
    (acc : Option ℚ × Option ℚ) : Except Unit (Option ℚ × Option ℚ) :=
  match entries with
  | [] => Except.ok acc
  | e :: rest =>
    if e.text = AMBIENT_TEMPERATURE_code then
      match pyFloat e.value with
      | Except.ok q => RcTouch.scanInfo rest (some q, acc.2)
      | Except.error u => Except.error u
    else if e.text = HUMIDITY_code then
      match pyFloat e.value with
      | Except.ok q => RcTouch.scanInfo rest (acc.1, some q)
      | Except.error u => Except.error u
    else RcTouch.scanInfo rest acc

/-- RcTouch.handle_state: emits `RcTouchState` only when temperature and
humidity both resolve from this payload; a ValueError from `float`
propagates. -/
def RcTouch.handleState (info : Option (List InfoEntry)) :
    Except Unit (Option RcTouchState) :=
  match RcTouch.scanInfo (info.getD []) (none, none) with
  | Except.error u => Except.error u
  | Except.ok (some t, some h) => Except.ok (some ⟨t, h⟩)
  | Except.ok _ => Except.ok none

/-! ## Rocker (device_rocker.py) -/

/-- A registry entry as seen by the rocker's companion search: every
BridgeDevice instance carries `device_id` and `comp_id` attributes (the
base constructor always sets both), so the `hasattr` guard in the source
is always satisfied for these entries. The list order is the insertion
order of `bridge._devices.values()`. -/
structure DeviceRef where
  device_id : Nat
  comp_id : Option Nat
deriving Repr, DecidableEq

/-- The rocker's correlation state: the cached companion device id and
the log of `state.subscribe` calls made so far (one entry per call,
naming the subscribed device). -/
structure RockerResolve where
  sensor_device : Option Nat
  subscriptions : List Nat
deriving Repr, DecidableEq

/-- Rocker._find_and_subscribe_sensor_device: return immediately when the
companion is already cached; otherwise take the first other device that
shares the rocker's `comp_id`, cache it and subscribe to it once. -/
def Rocker.findAndSubscribeSensorDevice (devices : List DeviceRef)
    (selfId : Nat) (compId : Option Nat) (s : RockerResolve) : RockerResolve :=
  if s.sensor_device.isSome then s
  else
    match devices.find? (fun d => d.device_id != selfId && d.comp_id == compId) with
    | some d => ⟨some d.device_id, s.subscriptions ++ [d.device_id]⟩
    | none => s

/-- The guarded resolver call shared by Rocker.handle_state and
Rocker._on_component_update: `if self._sensor_device is None:
self._find_and_subscribe_sensor_device()`. -/
def Rocker.resolveIfUnresolved (devices : List DeviceRef) (selfId : Nat)
    (compId : Option Nat) (s : RockerResolve) : RockerResolve :=
  match s.sensor_device with
  | none => Rocker.findAndSubscribeSensorDevice devices selfId compId s
  | some _ => s

/-- The rocker's cached sensor values and switch state. -/
structure RockerCache where
  is_on : Option Bool
  temperature : Option ℚ
  humidity : Option ℚ
deriving Repr, DecidableEq

/-- A value pushed through the rocker's state cell: a plain boolean for
ordinary rockers, a RockerSensorState for multisensor rockers. In the
source a RockerSensorState also carries a `raw` dict: the incoming
payload for handle_state emissions, but `self.payload` itself — the
rocker's own mutable dict — for _on_sensor_device_update emissions; that
aliasing is modelled by `RockerRaw`, `Rocker.payloadDictAfter` and
`Rocker.observeEmittedRaw` below. -/
inductive RockerEmit where
  | boolState (b : Bool)
  | sensorState (is_on : Option Bool) (temperature humidity : Option ℚ)
deriving Repr, DecidableEq

/-- Rocker.handle_state: reads `payload["curstate"]` unconditionally, so
a payload without that key raises KeyError (modelled as `Except.error`);
otherwise updates `is_on` and broadcasts one state value. The method's
first action, `self.payload.update(payload)` — which runs even when the
KeyError follows — mutates the dict that earlier
_on_sensor_device_update emissions carry as their `raw`; that
accumulation is modelled by `Rocker.payloadDictAfter` below. -/
def Rocker.handleState (hasSensors : Bool) (cache : RockerCache)
    (curstate : Option Int) : Except Unit (RockerCache × List RockerEmit) :=
  match curstate with
  | none => Except.error ()
  | some c =>
    let is_on := c ≠ 0
    let cache' := { cache with is_on := some is_on }
    if hasSensors then
      Except.ok (cache', [RockerEmit.sensorState (some is_on) cache.temperature cache.humidity])
    else
      Except.ok (cache', [RockerEmit.boolState is_on])

/-- The companion-info scan of Rocker._on_sensor_device_update: skip
falsy value strings, call `float` inside a try/except that swallows
ValueError, and record entries coded 1222 (temperature) and 1223
(humidity); a non-numeric value is caught and contributes nothing. -/
def Rocker.parseCompanionInfo (entries : List InfoEntry)
    (acc : Option ℚ × Option ℚ) : Option ℚ × Option ℚ :=
  match entries with
  | [] => acc
  | e :: rest =>
    if e.value.isFalsy then Rocker.parseCompanionInfo rest acc
    else
      match pyFloat e.value with
      | Except.ok q =>
        if e.text = "1222" then Rocker.parseCompanionInfo rest (some q, acc.2)
        else if e.text = "1223" then Rocker.parseCompanionInfo rest (acc.1, some q)
        else Rocker.parseCompanionInfo rest acc
      | Except.error _ => Rocker.parseCompanionInfo rest acc

/-- Rocker._on_sensor_device_update: `stateRaw = none` covers a `None`
companion state or one without a `raw` attribute (early return);
otherwise parse the companion payload's info array, and when temperature
or humidity changed from the cache, store them and re-emit a
RockerSensorState unless both are now absent. The emitted
RockerSensorState's `raw` is `self.payload` itself, the rocker's own
mutable dict; that aliasing is modelled by `Rocker.observeEmittedRaw`
below. -/
def Rocker.onSensorDeviceUpdate (cache : RockerCache)
    (stateRaw : Option (Option (List InfoEntry))) : RockerCache × List RockerEmit :=
  match stateRaw with
  | none => (cache, [])
  | some info =>
    let parsed := Rocker.parseCompanionInfo (info.getD []) (none, none)
    let temperature := parsed.1
    let humidity := parsed.2
    if temperature ≠ cache.temperature ∨ humidity ≠ cache.humidity then
      let cache' := { cache with temperature := temperature, humidity := humidity }
      if temperature ≠ none ∨ humidity ≠ none then
        (cache', [RockerEmit.sensorState cache.is_on temperature humidity])
      else
        (cache', [])
    else
      (cache, [])

/-- The rocker's own `self.payload` dict, restricted to recognized
keys. -/
structure RockerRaw where
  curstate : Option Int
  controlId : Option (List Nat)
deriving Repr, DecidableEq

/-- `self.payload.update(payload)`: dictionary update, the new payload's
present keys win. -/
def RockerRaw.update (old new : RockerRaw) : RockerRaw :=
  ⟨mergeOpt new.curstate old.curstate, mergeOpt new.controlId old.controlId⟩

/-- The rocker's `self.payload` dict after it was constructed with
`initial` and `handle_state` has processed the payloads `ps`: each call
begins with `self.payload.update(payload)`. -/
def Rocker.payloadDictAfter (initial : RockerRaw) (ps : List RockerRaw) : RockerRaw :=
  ps.foldl RockerRaw.update initial

/-- Reading the `raw` field of a RockerSensorState that
_on_sensor_device_update emitted at step `_i`, after `obs` further
handle_state payloads of `ps` have been processed. The emission carries
`raw = self.payload` — the same mutable dict every handle_state call
updates in place — so the read returns the dict as it stands after `obs`
payloads, regardless of when the state was emitted. -/
def Rocker.observeEmittedRaw (initial : RockerRaw) (ps : List RockerRaw)
    (_i obs : Nat) : RockerRaw :=
  Rocker.payloadDictAfter initial (ps.take obs)

/-! ## Appliance and DoorWindowSensor reducers -/

/-- Appliance.handle_state: ignore payloads without `switch`, else emit
the boolean switch state. -/
def Appliance.handleState (switch : Option Bool) : Option Bool :=
  match switch with
  | some b => some b
  | none => none

/-- DoorWindowSensor.handle_state: update `is_closed` when `curstate` is
present, then emit the (possibly unchanged) `is_closed` value
unconditionally — `self.state.on_next(self.is_closed)` is outside the
guard. Returns the new `is_closed` and the emission list. -/
def DoorWindowSensor.handleState (is_closed : Option Bool)
    (curstate : Option Int) : Option Bool × List (Option Bool) :=
  match curstate with
  | some c =>
    let ic := c = 1
    (some ic, [some ic])
  | none => (is_closed, [is_closed])

/-! ## Shade device traces (device_shade.py) -/

/-- Shade.handle_state: merge the partial payload into the accumulator
and emit. The emitted object is `self.__shade_state` itself — the single
mutable accumulator — which `Shade.observeEmitted` below accounts for. -/
def Shade.handleState (st : ShadeState) (p : ShadePayload) :
    ShadeState × List ShadeState :=
  let st' := st.updateFromPartialStateUpdate p
  (st', [st'])

/-- The shade accumulator after a sequence of payloads. -/
def Shade.runAccum (ps : List ShadePayload) : ShadeState :=
  ps.foldl ShadeState.updateFromPartialStateUpdate ShadeState.init

/-- Reading the state object that Shade.handle_state emitted at step `i`,
after `obs ≥ i` payloads of `ps` have been processed. Because every
emission is the same accumulator object (`self.state.on_next(self.__shade_state)`),
the read returns the accumulator as it stands after `obs` payloads; the
emission index `i` does not affect the result. -/
def Shade.observeEmitted (ps : List ShadePayload) (_i obs : Nat) : ShadeState :=
  Shade.runAccum (ps.take obs)

/-! ## Light device traces -/

/-- One Light.handle_state call as a step on the device's stored state,
returning the (zero or one) freshly constructed emitted snapshots. -/
def Light.step (dimmable : Bool) (prev : Option LightState) (p : LightPayload) :
    Option LightState × List LightState :=
  match Light.handleState dimmable prev p with
  | none => (prev, [])
  | some st => (some st, [st])

/-- The Light device's stored state and full emission trace over a
payload sequence. -/
def Light.runEmits (dimmable : Bool) (prev : Option LightState)
    (ps : List LightPayload) : Option LightState × List LightState :=
  match ps with
  | [] => (prev, [])
  | p :: rest =>
    let r := Light.step dimmable prev p
    let r' := Light.runEmits dimmable r.1 rest
    (r'.1, r.2 ++ r'.2)

/-! ## Staleness watchdog (sensor.py, XComfortHeaterPowerSensor /
XComfortHeaterEnergySensor)

`heaterPower` models `getattr(self._state, "power", None)`: `none` when
no heater state has arrived or its power field is `None`. Timestamps are
`time.monotonic()` values, modelled as rationals. -/

def FALLBACK_POWER_THRESHOLD_W : ℚ := 1/2

def FALLBACK_ZERO_WINDOW_SEC : ℚ := 20

def FALLBACK_TICK_INTERVAL_SEC : ℚ := 20

structure WatchdogState where
  heaterPower : Option ℚ
  roomZeroSince : Option ℚ
  forcedZero : Bool
deriving Repr, DecidableEq

def WatchdogState.init : WatchdogState := ⟨none, none, false⟩

/-- XComfortHeaterPowerSensor._state_change: store the heater reading;
with stale protection on, a power at or below the threshold clears
`forcedZero`. -/
def Watchdog.stateChange (sp : Bool) (s : WatchdogState) (p : Option ℚ) :
    WatchdogState :=
  let s1 : WatchdogState := { s with heaterPower := p }
  match p with
  | some q =>
    if sp ∧ q ≤ FALLBACK_POWER_THRESHOLD_W then { s1 with forcedZero := false }
    else s1
  | none => s1

/-- XComfortHeaterPowerSensor._room_state_change: a room power at or
below the threshold starts `roomZeroSince` if unset; one above it clears
both `roomZeroSince` and `forcedZero`. Then the correction trigger: when
`roomZeroSince` is truthy (a Python float timestamp, so nonzero), the
heater power is known, the elapsed time reaches the window, the heater
power exceeds the threshold and `forcedZero` is not already set, set
`forcedZero`. A room state of `None` or without a power value returns
unchanged (`p = none`). The method is split here into its two sequential
blocks: `roomTrack` (the roomZeroSince bookkeeping) and `roomTrigger`
(the correction trigger), composed by `roomStateChange`. -/
def Watchdog.roomTrack (s : WatchdogState) (q : ℚ) (now : ℚ) : WatchdogState :=
  if q ≤ FALLBACK_POWER_THRESHOLD_W then
    match s.roomZeroSince with
    | none => { s with roomZeroSince := some now }
    | some _ => s
  else { s with roomZeroSince := none, forcedZero := false }

/-- The correction trigger at the end of _room_state_change, evaluated on
the state the tracking block produced. -/
def Watchdog.roomTrigger (s1 : WatchdogState) (now : ℚ) : WatchdogState :=
  match s1.roomZeroSince, s1.heaterPower with
  | some t, some hp =>
    if t ≠ 0 ∧ now - t ≥ FALLBACK_ZERO_WINDOW_SEC ∧
        hp > FALLBACK_POWER_THRESHOLD_W ∧ ¬s1.forcedZero then
      { s1 with forcedZero := true }
    else s1
  | _, _ => s1

def Watchdog.roomStateChange (s : WatchdogState) (p : Option ℚ) (now : ℚ) :
    WatchdogState :=
  match p with
  | none => s
  | some q => Watchdog.roomTrigger (Watchdog.roomTrack s q now) now

/-- XComfortHeaterPowerSensor._check_tick: the periodic correction check;
returns unchanged without stale protection, without `roomZeroSince`,
without a known heater power, when the heater power is at or below the
threshold, before the window has elapsed, or when already forced. -/
def Watchdog.checkTick (sp : Bool) (s : WatchdogState) (now : ℚ) :
    WatchdogState :=
  if ¬sp then s
  else
    match s.roomZeroSince, s.heaterPower with
    | some t, some hp =>
      if hp ≤ FALLBACK_POWER_THRESHOLD_W then s
      else if now - t < FALLBACK_ZERO_WINDOW_SEC ∨ s.forcedZero then s
      else { s with forcedZero := true }
    | _, _ => s

/-- One watchdog input: a heater state update, a room state update at a
monotonic time, or a periodic tick at a monotonic time. -/
inductive WStep where
  | heater (p : Option ℚ)
  | room (p : Option ℚ) (now : ℚ)
  | tick (now : ℚ)
deriving Repr, DecidableEq

/-- The monotonic time at which a step is processed: room updates and
ticks read `time.monotonic()`; a heater update does not. -/
def WStep.nowTime : WStep → Option ℚ
  | WStep.heater _ => none
  | WStep.room _ now => some now
  | WStep.tick now => some now

def Watchdog.wstep (sp : Bool) (s : WatchdogState) : WStep → WatchdogState
  | WStep.heater p => Watchdog.stateChange sp s p
  | WStep.room p now => Watchdog.roomStateChange s p now
  | WStep.tick now => Watchdog.checkTick sp s now

/-- The watchdog state after a sequence of inputs. -/
def Watchdog.run (sp : Bool) (s : WatchdogState) (es : List WStep) :
    WatchdogState :=
  es.foldl (Watchdog.wstep sp) s

/-- XComfortHeaterPowerSensor.native_value: 0.0 when stale protection
forced the reading to zero, else the last heater power. -/
def Watchdog.powerNativeValue (sp : Bool) (s : WatchdogState) : Option ℚ :=
  if sp ∧ s.forcedZero then some 0 else s.heaterPower

/-! ## Energy integration (sensor.py, XComfortHeaterEnergySensor) -/

structure EnergyAcc where
  consumption : ℚ
  update_time : ℚ
deriving Repr, DecidableEq

/-- XComfortHeaterEnergySensor._calculate: add
`power / 3600 / 1000 * (now - update_time)` kWh and stamp the time. -/
def EnergySensor.calculate (acc : EnergyAcc) (power now : ℚ) : EnergyAcc :=
  ⟨acc.consumption + power / 3600 / 1000 * (now - acc.update_time), now⟩

/-- The corrected power used by the energy sensor: 0.0 under stale
protection with `forcedZero` set, else the raw heater power. -/
def EnergySensor.correctedPower (sp fz : Bool) (statePower : ℚ) : ℚ :=
  if sp ∧ fz then 0 else statePower

/-- Python `round(x, 3)`: scale by 1000 and round half-to-even. -/
def pyRound3 (x : ℚ) : ℚ :=
  let y := x * 1000
  let f : ℤ := ⌊y⌋
  let r := y - (f : ℚ)
  let n : ℤ :=
    if r < 1/2 then f
    else if r > 1/2 then f + 1
    else if f % 2 = 0 then f else f + 1
  (n : ℚ) / 1000

/-- XComfortHeaterEnergySensor.native_value: with a known heater power,
accumulate the corrected power since the last update and report the
rounded total; otherwise report nothing and leave the accumulator. -/
def EnergySensor.nativeValue (sp fz : Bool) (statePower : Option ℚ)
    (acc : EnergyAcc) (now : ℚ) : EnergyAcc × Option ℚ :=
  match statePower with
  | some p =>
    let acc' := EnergySensor.calculate acc (EnergySensor.correctedPower sp fz p) now
    (acc', some (pyRound3 acc'.consumption))
  | none => (acc, none)

/-! ## Theorems -/

/-- Events delivered to subscriber `s` when a list of (subscriber,
value) invocations is performed. -/
theorem filter_eventsFor_append_singleton {α : Type} (l : List Nat) (s : Nat)
    (v : α) (h : s ∉ l) :
    ((l ++ [s]).map (fun x => (x, v))).filter (fun e => e.1 == s) = [(s, v)] := by
  induction l with
  | nil => simp
  | cons a t ih =>
    simp only [List.mem_cons, not_or] at h
    simp only [List.cons_append, List.map_cons, List.filter_cons]
    have ha : (a == s) = false := by
      simp only [beq_eq_false_iff_ne, ne_eq]
      exact fun hc => h.1 hc.symm
    simp only [ha, Bool.false_eq_true, if_false]
    exact ih h.2

/-- C6: subscription is replay-then-live: after any three emits on a
cell, a freshly added subscriber is immediately invoked exactly once,
with the third value only; the next emit then invokes it exactly once
with the fourth value. -/
theorem statecell_replay_then_live {α : Type} (c : StateCell α)
    (v1 v2 v3 v4 : α) (s : Nat) (hs : s ∉ c.subs) :
    ((((c.emitCell v1).1.emitCell v2).1.emitCell v3).1.subscribeCell s).2 =
      [(s, v3)] ∧
    (((((c.emitCell v1).1.emitCell v2).1.emitCell v3).1.subscribeCell s).1.emitCell
        v4).2.filter (fun e => e.1 == s) = [(s, v4)] := by
  refine ⟨rfl, ?_⟩
  exact filter_eventsFor_append_singleton c.subs s v4 hs

/-- C6 witness: the replay-then-live property at a concrete cell and
concrete values. -/
theorem statecell_replay_then_live_witness :
    ((((StateCell.empty.emitCell 1).1.emitCell 2).1.emitCell 3).1.subscribeCell 7).2 =
      [(7, 3)] ∧
    (((((StateCell.empty.emitCell 1).1.emitCell 2).1.emitCell 3).1.subscribeCell
        7).1.emitCell 4).2.filter (fun e => e.1 == 7) = [(7, 4)] :=
  statecell_replay_then_live (StateCell.empty (α := Nat)) 1 2 3 4 7 (by simp [StateCell.empty])

/-- C3: the energy accumulator adds corrected power / 3600 / 1000 times
the elapsed seconds per reading; the corrected power is 0 exactly when
stale protection and forcedZero are both set, else the raw power; 0 W
over 20 s adds exactly 0 kWh, and 1000 W over 3600 s adds exactly
1 kWh. -/
theorem heater_energy_integral :
    (∀ (sp fz : Bool) (p : ℚ) (acc : EnergyAcc) (now : ℚ),
      (EnergySensor.nativeValue sp fz (some p) acc now).1.consumption =
        acc.consumption +
          EnergySensor.correctedPower sp fz p / 3600 / 1000 * (now - acc.update_time)) ∧
    (∀ p : ℚ, EnergySensor.correctedPower true true p = 0) ∧
    (∀ (sp fz : Bool) (p : ℚ), ¬(sp = true ∧ fz = true) →
      EnergySensor.correctedPower sp fz p = p) ∧
    (∀ acc : EnergyAcc,
      (EnergySensor.calculate acc 0 (acc.update_time + 20)).consumption =
        acc.consumption) ∧
    (∀ acc : EnergyAcc,
      (EnergySensor.calculate acc 1000 (acc.update_time + 3600)).consumption =
        acc.consumption + 1) := by
  refine ⟨fun sp fz p acc now => rfl, fun p => rfl, ?_, ?_, ?_⟩
  · intro sp fz p h
    simp only [EnergySensor.correctedPower]
    rw [if_neg]
    exact fun hc => h ⟨hc.1, hc.2⟩
  · intro acc
    simp [EnergySensor.calculate]
  · intro acc
    simp only [EnergySensor.calculate]
    norm_num

/-- C3 witness: the accumulator equations at concrete inputs. -/
theorem heater_energy_integral_witness :
    (EnergySensor.nativeValue true true (some 800) ⟨0, 0⟩ 20).1.consumption =
      (0 : ℚ) + EnergySensor.correctedPower true true 800 / 3600 / 1000 * (20 - 0) ∧
    EnergySensor.correctedPower false false 800 = 800 ∧
    (EnergySensor.calculate ⟨0, 0⟩ 0 (0 + 20)).consumption = (0 : ℚ) ∧
    (EnergySensor.calculate ⟨0, 0⟩ 1000 (0 + 3600)).consumption = (0 : ℚ) + 1 :=
  ⟨heater_energy_integral.1 true true 800 ⟨0, 0⟩ 20,
   heater_energy_integral.2.2.1 false false 800 (by simp),
   heater_energy_integral.2.2.2.1 ⟨0, 0⟩,
   heater_energy_integral.2.2.2.2 ⟨0, 0⟩⟩

/-- C5: shade state accumulates across partial updates: the three-step
scenario shPos:40, shSafety:1, shPos:100 yields (40, none, none), then
(40, safety, none), then (100, safety, closed); an omitted field is never
reset; and is_closed is `none` exactly when the position is unknown or
strictly between 0 and 100, `some true` exactly at position 100. -/
theorem shade_accumulation :
    (let s1 := ShadeState.init.updateFromPartialStateUpdate ⟨none, none, some 40⟩
     let s2 := s1.updateFromPartialStateUpdate ⟨none, some 1, none⟩
     let s3 := s2.updateFromPartialStateUpdate ⟨none, none, some 100⟩
     (s1.position = some 40 ∧ s1.is_safety_enabled = none ∧ s1.isClosed = none) ∧
     (s2.position = some 40 ∧ s2.is_safety_enabled = some true ∧ s2.isClosed = none) ∧
     (s3.position = some 100 ∧ s3.is_safety_enabled = some true ∧
       s3.isClosed = some true)) ∧
    (∀ (st : ShadeState) (p : ShadePayload),
      (p.shPos = none → (st.updateFromPartialStateUpdate p).position = st.position) ∧
      (p.shSafety = none →
        (st.updateFromPartialStateUpdate p).is_safety_enabled = st.is_safety_enabled) ∧
      (p.curstate = none →
        (st.updateFromPartialStateUpdate p).current_state = st.current_state)) ∧
    (∀ st : ShadeState,
      (st.isClosed = none ↔
        st.position = none ∨ ∃ q, st.position = some q ∧ 0 < q ∧ q < 100) ∧
      (st.isClosed = some true ↔ st.position = some 100)) := by
  refine ⟨?_, ?_, ?_⟩
  · decide
  · intro st p
    refine ⟨fun h => ?_, fun h => ?_, fun h => ?_⟩ <;>
      simp [ShadeState.updateFromPartialStateUpdate, h]
  · intro st
    cases hp : st.position with
    | none => simp [ShadeState.isClosed, hp]
    | some q =>
      constructor
      · simp only [ShadeState.isClosed, hp]
        split_ifs with hq
        · simp only [true_iff]
          exact Or.inr ⟨q, rfl, hq⟩
        · simp only [reduceCtorEq, false_iff, not_or]
          refine ⟨by simp, ?_⟩
          rintro ⟨q', hq', h1, h2⟩
          rw [Option.some_inj] at hq'
          exact hq ⟨hq' ▸ h1, hq' ▸ h2⟩
      · simp only [ShadeState.isClosed, hp]
        split_ifs with hq
        · simp only [reduceCtorEq, false_iff]
          intro hc
          rw [Option.some_inj] at hc
          subst hc
          exact absurd hq.2 (lt_irrefl _)
        · simp only [Option.some_inj, decide_eq_true_eq]

/-- C5 witness: the never-reset implications at a concrete state and
payload, alongside the scenario facts. -/
theorem shade_accumulation_witness :
    (ShadeState.init.updateFromPartialStateUpdate ⟨some 2, none, none⟩).position =
      ShadeState.init.position ∧
    (ShadeState.init.updateFromPartialStateUpdate ⟨some 2, none, none⟩).is_safety_enabled =
      ShadeState.init.is_safety_enabled ∧
    (ShadeState.init.isClosed = some true ↔ ShadeState.init.position = some 100) :=
  ⟨(shade_accumulation.2.1 ShadeState.init ⟨some 2, none, none⟩).1 rfl,
   (shade_accumulation.2.1 ShadeState.init ⟨some 2, none, none⟩).2.1 rfl,
   (shade_accumulation.2.2 ShadeState.init).2⟩

/-- C4: the light merge: from prior state (on, dim 60, 12 W), the payload
{switch:false} yields exactly (off, dim 60, 0 W); in general an explicit
power field wins, else power is forced to 0 when the light is off or the
dim value is 0, else the prior power is retained. -/
theorem light_merge_power_rule :
    (∀ raw : LightPayload,
      Light.handleState true (some ⟨true, 60, some 12, raw⟩) ⟨some false, none, none⟩ =
        some ⟨false, 60, some 0, raw.rawUpdate ⟨some false, none, none⟩⟩) ∧
    (∀ (dimmable : Bool) (prev : Option LightState) (p : LightPayload)
       (st : LightState), Light.handleState dimmable prev p = some st →
      (∀ q, p.power = some q → st.power = some q) ∧
      (p.power = none → (st.switch = false ∨ st.dimmvalue = 0) → st.power = some 0) ∧
      (p.power = none → st.switch = true → st.dimmvalue ≠ 0 →
        st.power = Option.bind prev LightState.power)) := by
  constructor
  · intro raw
    rfl
  · intro dimmable prev p st h
    simp only [Light.handleState] at h
    split at h
    · exact absurd h (by simp)
    · rw [Option.some_inj] at h
      subst h
      refine ⟨?_, ?_, ?_⟩
      · intro q hq
        simp [hq]
      · intro hq hoff
        simp only [hq]
        simp only [hq] at hoff
        split_ifs with hc
        · rfl
        · exfalso
          rcases hoff with hsw | hdv
          · simp only [hsw] at hc
            exact hc (Or.inl (by simp))
          · exact hc (Or.inr hdv)
      · intro hq hsw hdv
        simp only [hq]
        simp only [hq] at hsw hdv
        split_ifs with hc
        · exfalso
          rcases hc with hc1 | hc2
          · rw [hsw] at hc1
            exact hc1 rfl
          · exact hdv hc2
        · cases prev with
          | none => rfl
          | some st0 => rfl

/-- C4 witness: the merge scenario and the power rule at concrete
inputs. -/
theorem light_merge_power_rule_witness :
    Light.handleState true (some ⟨true, 60, some 12, LightPayload.empty⟩)
        ⟨some false, none, none⟩ =
      some ⟨false, 60, some 0,
        LightPayload.empty.rawUpdate ⟨some false, none, none⟩⟩ ∧
    (⟨false, 60, some 0, LightPayload.empty.rawUpdate ⟨some false, none, none⟩⟩ :
        LightState).power = some 0 :=
  ⟨light_merge_power_rule.1 LightPayload.empty,
   (light_merge_power_rule.2 true (some ⟨true, 60, some 12, LightPayload.empty⟩)
      ⟨some false, none, none⟩ _ (light_merge_power_rule.1 LightPayload.empty)).2.1
      rfl (Or.inl rfl)⟩

/-- C7: correlation resolution is idempotent: on an already-resolved
rocker the resolver (called directly or through the guarded paths in
handle_state and _on_component_update) is a no-op that changes nothing
and subscribes to nothing; resolving twice is the same as resolving
once, and when resolution succeeds from a fresh state, two runs leave
exactly one subscription. -/
theorem rocker_correlation_idempotent :
    (∀ (devices : List DeviceRef) (selfId : Nat) (compId : Option Nat)
       (s : RockerResolve) (d : Nat), s.sensor_device = some d →
       Rocker.findAndSubscribeSensorDevice devices selfId compId s = s ∧
       Rocker.resolveIfUnresolved devices selfId compId s = s) ∧
    (∀ (devices : List DeviceRef) (selfId : Nat) (compId : Option Nat)
       (s : RockerResolve),
       Rocker.findAndSubscribeSensorDevice devices selfId compId
           (Rocker.findAndSubscribeSensorDevice devices selfId compId s) =
         Rocker.findAndSubscribeSensorDevice devices selfId compId s) ∧
    (∀ (devices : List DeviceRef) (selfId : Nat) (compId : Option Nat)
       (s : RockerResolve), s.sensor_device = none → s.subscriptions = [] →
       (Rocker.findAndSubscribeSensorDevice devices selfId compId
           (Rocker.findAndSubscribeSensorDevice devices selfId compId
             s)).sensor_device.isSome →
       (Rocker.findAndSubscribeSensorDevice devices selfId compId
           (Rocker.findAndSubscribeSensorDevice devices selfId compId
             s)).subscriptions.length = 1) := by
  have hres : ∀ (devices : List DeviceRef) (selfId : Nat) (compId : Option Nat)
      (s : RockerResolve) (d : Nat), s.sensor_device = some d →
      Rocker.findAndSubscribeSensorDevice devices selfId compId s = s := by
    intro devices selfId compId s d hd
    simp [Rocker.findAndSubscribeSensorDevice, hd]
  refine ⟨?_, ?_, ?_⟩
  · intro devices selfId compId s d hd
    refine ⟨hres devices selfId compId s d hd, ?_⟩
    simp [Rocker.resolveIfUnresolved, hd]
  · intro devices selfId compId s
    cases hd : s.sensor_device with
    | some d =>
      rw [hres devices selfId compId s d hd, hres devices selfId compId s d hd]
    | none =>
      simp only [Rocker.findAndSubscribeSensorDevice, hd, Option.isSome_none,
        Bool.false_eq_true, if_false]
      cases hf : devices.find? (fun d => d.device_id != selfId && d.comp_id == compId) with
      | none => simp [Rocker.findAndSubscribeSensorDevice, hd, hf]
      | some d => simp [Rocker.findAndSubscribeSensorDevice, hf]
  · intro devices selfId compId s hd hsub hsome
    have h1 : Rocker.findAndSubscribeSensorDevice devices selfId compId s =
        match devices.find? (fun d => d.device_id != selfId && d.comp_id == compId) with
        | some d => ⟨some d.device_id, s.subscriptions ++ [d.device_id]⟩
        | none => s := by
      simp [Rocker.findAndSubscribeSensorDevice, hd]
    cases hf : devices.find? (fun d => d.device_id != selfId && d.comp_id == compId) with
    | none =>
      rw [hf] at h1
      rw [h1, h1] at hsome
      rw [hd] at hsome
      exact absurd hsome (by simp)
    | some d =>
      rw [hf] at h1
      rw [h1, hres devices selfId compId _ d.device_id rfl, hsub]
      rfl

/-- C7 witness: one device resolving, then a second resolver run, ends
with exactly one subscription; and the resolver is a no-op on the
resolved state. -/
theorem rocker_correlation_idempotent_witness :
    Rocker.findAndSubscribeSensorDevice [⟨5, some 9⟩] 1 (some 9) ⟨some 5, [5]⟩ =
      ⟨some 5, [5]⟩ ∧
    (Rocker.findAndSubscribeSensorDevice [⟨5, some 9⟩] 1 (some 9)
        (Rocker.findAndSubscribeSensorDevice [⟨5, some 9⟩] 1 (some 9)
          ⟨none, []⟩)).subscriptions.length = 1 :=
  ⟨(rocker_correlation_idempotent.1 [⟨5, some 9⟩] 1 (some 9) ⟨some 5, [5]⟩ 5 rfl).1,
   rocker_correlation_idempotent.2.2 [⟨5, some 9⟩] 1 (some 9) ⟨none, []⟩ rfl rfl
     (by decide)⟩

/-- C8 counterexample: Rocker.handle_state on a payload without a
`curstate` key raises KeyError (payload["curstate"] is read
unconditionally), so a payload with none of the recognized fields is not
a harmless no-op for every device type. -/
theorem handle_state_no_recognized_fields_cex :
    Rocker.handleState false ⟨none, none, none⟩ none = Except.error () :=
  rfl

/-- C8 amended: a payload with none of the recognized fields is a silent
no-op for Light, Appliance, Heater and RcTouch; but Rocker raises
KeyError on a payload without `curstate`, and DoorWindowSensor and Shade
still emit their current (unchanged) state on such a payload. -/
theorem handle_state_no_recognized_fields_amended :
    (∀ (dimmable : Bool) (prev : Option LightState),
      Light.step dimmable prev ⟨none, none, none⟩ = (prev, [])) ∧
    Appliance.handleState none = none ∧
    Heater.handleState ⟨none, none, none⟩ = Except.ok none ∧
    RcTouch.handleState none = Except.ok none ∧
    (∀ (hasSensors : Bool) (cache : RockerCache),
      Rocker.handleState hasSensors cache none = Except.error ()) ∧
    (∀ ic : Option Bool, DoorWindowSensor.handleState ic none = (ic, [ic])) ∧
    (∀ st : ShadeState, Shade.handleState st ShadePayload.empty = (st, [st])) := by
  refine ⟨fun dimmable prev => rfl, rfl, rfl, rfl, fun hs cache => rfl,
    fun ic => rfl, ?_⟩
  intro st
  have hupd : st.updateFromPartialStateUpdate ShadePayload.empty = st := by
    cases st with
    | mk raw cs safe pos =>
      cases raw
      rfl
  simp [Shade.handleState, hupd]

/-- C9 counterexample: Heater.handle_state calls `float` on the value of
a recognized info entry with no exception handler, so a non-numeric
value raises ValueError instead of being treated as field-absent. -/
theorem info_parse_failure_cex :
    Heater.handleState
        ⟨some [⟨DEVICE_TEMPERATURE_code, InfoVal.nonNum "abc"⟩], none, none⟩ =
      Except.error () :=
  rfl

/-- A non-numeric info value in the rocker companion scan is skipped;
both the falsy-string guard and the caught ValueError leave the fold
where it stood. -/
theorem parseCompanionInfo_nonNum_skip (t s : String) (entries : List InfoEntry)
    (acc : Option ℚ × Option ℚ) :
    Rocker.parseCompanionInfo (⟨t, InfoVal.nonNum s⟩ :: entries) acc =
      Rocker.parseCompanionInfo entries acc := by
  by_cases h : s = ""
  · simp [Rocker.parseCompanionInfo, InfoVal.isFalsy, h]
  · simp [Rocker.parseCompanionInfo, InfoVal.isFalsy, h, pyFloat]

/-- C9 amended: only the rocker companion parsing catches numeric parse
failures and treats the entry as absent; Heater and RcTouch raise
ValueError on a non-numeric value for a recognized info code. -/
theorem info_parse_failure_amended :
    (∀ (t s : String) (entries : List InfoEntry) (acc : Option ℚ × Option ℚ),
      Rocker.parseCompanionInfo (⟨t, InfoVal.nonNum s⟩ :: entries) acc =
        Rocker.parseCompanionInfo entries acc) ∧
    (∀ (cache : RockerCache) (s : String) (rest : List InfoEntry),
      Rocker.onSensorDeviceUpdate cache
          (some (some (⟨"1222", InfoVal.nonNum s⟩ :: rest))) =
        Rocker.onSensorDeviceUpdate cache (some (some rest))) ∧
    (∀ (s : String) (rest : List InfoEntry) (dimm pw : Option ℚ),
      Heater.handleState
          ⟨some (⟨DEVICE_TEMPERATURE_code, InfoVal.nonNum s⟩ :: rest), dimm, pw⟩ =
        Except.error ()) ∧
    (∀ (s : String) (rest : List InfoEntry),
      RcTouch.handleState
          (some (⟨AMBIENT_TEMPERATURE_code, InfoVal.nonNum s⟩ :: rest)) =
        Except.error ()) := by
  refine ⟨parseCompanionInfo_nonNum_skip, ?_, ?_, ?_⟩
  · intro cache s rest
    simp [Rocker.onSensorDeviceUpdate, parseCompanionInfo_nonNum_skip]
  · intro s rest dimm pw
    simp [Heater.handleState, Heater.scanInfo, DEVICE_TEMPERATURE_code, pyFloat]
  · intro s rest
    simp [RcTouch.handleState, RcTouch.scanInfo, AMBIENT_TEMPERATURE_code, pyFloat]

/-- C10 counterexample: Shade.handle_state emits the single mutable
accumulator object itself; after payloads shPos:40 then shPos:100, the
object emitted at step 1, observed again after step 2, shows position
100 instead of its emission-time 40 — a later handle_state call changed
a field of a previously emitted value. -/
theorem emitted_state_immutability_cex :
    (Shade.observeEmitted [⟨none, none, some 40⟩, ⟨none, none, some 100⟩] 1 1).position =
      some 40 ∧
    (Shade.observeEmitted [⟨none, none, some 40⟩, ⟨none, none, some 100⟩] 1 2).position =
      some 100 :=
  ⟨rfl, rfl⟩

/-- The Light device's emission trace is append-only: processing further
payloads extends the trace and leaves every previously emitted snapshot
untouched. -/
theorem light_runEmits_append (dimmable : Bool) (prev : Option LightState)
    (ps qs : List LightPayload) :
    (Light.runEmits dimmable prev (ps ++ qs)).2 =
      (Light.runEmits dimmable prev ps).2 ++
        (Light.runEmits dimmable (Light.runEmits dimmable prev ps).1 qs).2 := by
  induction ps generalizing prev with
  | nil => simp [Light.runEmits]
  | cons p rest ih =>
    simp only [List.cons_append, Light.runEmits, List.append_eq]
    rw [ih]
    simp [List.append_assoc]

/-- C10 amended: Light emits freshly constructed snapshots — its
emission trace is append-only and earlier entries never change — but the
claim fails for Shade and Rocker: Shade emits the same mutable
accumulator object on every call, so every outstanding emitted
ShadeState reads as the current accumulator and the value emitted at
step 1 of shPos:40, shPos:100 changes from position 40 to position 100;
and a RockerSensorState emitted by _on_sensor_device_update carries
raw = self.payload, so after a later handle_state call with curstate:0
the previously emitted state's raw reads curstate 0 where it read
curstate 1 at emission time. -/
theorem emitted_state_immutability_amended :
    (∀ (ps : List ShadePayload) (i j obs : Nat),
      Shade.observeEmitted ps i obs = Shade.observeEmitted ps j obs) ∧
    ((Shade.observeEmitted [⟨none, none, some 40⟩, ⟨none, none, some 100⟩] 1 1).position =
        some 40 ∧
     (Shade.observeEmitted [⟨none, none, some 40⟩, ⟨none, none, some 100⟩] 1 2).position =
        some 100) ∧
    ((Rocker.observeEmittedRaw ⟨some 1, none⟩ [⟨some 0, none⟩] 0 0).curstate =
        some 1 ∧
     (Rocker.observeEmittedRaw ⟨some 1, none⟩ [⟨some 0, none⟩] 0 1).curstate =
        some 0 ∧
     (∀ (initial : RockerRaw) (ps : List RockerRaw) (i j obs : Nat),
       Rocker.observeEmittedRaw initial ps i obs =
         Rocker.observeEmittedRaw initial ps j obs)) ∧
    (∀ (dimmable : Bool) (prev : Option LightState) (ps qs : List LightPayload),
      (Light.runEmits dimmable prev (ps ++ qs)).2 =
        (Light.runEmits dimmable prev ps).2 ++
          (Light.runEmits dimmable (Light.runEmits dimmable prev ps).1 qs).2) :=
  ⟨fun _ps _i _j _obs => rfl, ⟨rfl, rfl⟩,
   ⟨rfl, rfl, fun _initial _ps _i _j _obs => rfl⟩, light_runEmits_append⟩

/-- C2 counterexample: in the hysteresis scenario (room 5 W at t=100,
heater 800 W, room 0.3 W at t=105, tick at t=125 sets forcedZero), the
next room reading of 5 W at t=130 clears forcedZero in that very step —
the else-branch of _room_state_change clears both roomZeroSince and
forcedZero — even though no heater reading at or below 0.5 W was ever
processed. -/
theorem watchdog_hysteresis_room_recovery_cex :
    (Watchdog.run true WatchdogState.init
        [WStep.room (some 5) 100, WStep.heater (some 800),
         WStep.room (some (3/10)) 105, WStep.tick 125]).forcedZero = true ∧
    (Watchdog.run true WatchdogState.init
        [WStep.room (some 5) 100, WStep.heater (some 800),
         WStep.room (some (3/10)) 105, WStep.tick 125,
         WStep.room (some 5) 130]).forcedZero = false := by
  constructor <;>
    norm_num [Watchdog.run, Watchdog.wstep, Watchdog.roomStateChange,
      Watchdog.roomTrack, Watchdog.roomTrigger, Watchdog.stateChange,
      Watchdog.checkTick, WatchdogState.init, FALLBACK_POWER_THRESHOLD_W,
      FALLBACK_ZERO_WINDOW_SEC, List.foldl]

/-- C2 amended: after forcedZero has been set with the heater last at
800 W, a later room reading of 5 W clears roomZeroSince and also clears
forcedZero in that same step (room recovery releases the forced zero);
independently, a heater reading at or below 0.5 W clears forcedZero. -/
theorem watchdog_hysteresis_room_recovery_amended :
    ((Watchdog.run true WatchdogState.init
        [WStep.room (some 5) 100, WStep.heater (some 800),
         WStep.room (some (3/10)) 105, WStep.tick 125]).forcedZero = true ∧
     Watchdog.powerNativeValue true
        (Watchdog.run true WatchdogState.init
          [WStep.room (some 5) 100, WStep.heater (some 800),
           WStep.room (some (3/10)) 105, WStep.tick 125]) = some 0 ∧
     (Watchdog.run true WatchdogState.init
        [WStep.room (some 5) 100, WStep.heater (some 800),
         WStep.room (some (3/10)) 105, WStep.tick 125,
         WStep.room (some 5) 130]).roomZeroSince = none ∧
     (Watchdog.run true WatchdogState.init
        [WStep.room (some 5) 100, WStep.heater (some 800),
         WStep.room (some (3/10)) 105, WStep.tick 125,
         WStep.room (some 5) 130]).forcedZero = false) ∧
    (∀ (s : WatchdogState) (q now : ℚ), FALLBACK_POWER_THRESHOLD_W < q →
      (Watchdog.roomStateChange s (some q) now).roomZeroSince = none ∧
      (Watchdog.roomStateChange s (some q) now).forcedZero = false) ∧
    (∀ (s : WatchdogState) (q : ℚ), q ≤ FALLBACK_POWER_THRESHOLD_W →
      (Watchdog.stateChange true s (some q)).forcedZero = false) := by
  refine ⟨?_, ?_, ?_⟩
  · refine ⟨?_, ?_, ?_, ?_⟩ <;>
      norm_num [Watchdog.run, Watchdog.wstep, Watchdog.roomStateChange,
        Watchdog.roomTrack, Watchdog.roomTrigger, Watchdog.stateChange,
        Watchdog.checkTick, Watchdog.powerNativeValue, WatchdogState.init,
        FALLBACK_POWER_THRESHOLD_W, FALLBACK_ZERO_WINDOW_SEC, List.foldl]
  · intro s q now hq
    have hq' : ¬q ≤ FALLBACK_POWER_THRESHOLD_W := not_le.mpr hq
    simp [Watchdog.roomStateChange, Watchdog.roomTrack, Watchdog.roomTrigger, hq']
  · intro s q hq
    simp [Watchdog.stateChange, hq]

/-- C2 amended witness: room recovery and a low heater reading both
clear forcedZero, at concrete states. -/
theorem watchdog_hysteresis_room_recovery_amended_witness :
    ((Watchdog.roomStateChange ⟨some 800, some 105, true⟩ (some 5) 130).roomZeroSince =
        none ∧
     (Watchdog.roomStateChange ⟨some 800, some 105, true⟩ (some 5) 130).forcedZero =
        false) ∧
    (Watchdog.stateChange true ⟨some 800, some 105, true⟩ (some 0)).forcedZero =
      false :=
  ⟨watchdog_hysteresis_room_recovery_amended.2.1 ⟨some 800, some 105, true⟩ 5 130
     (by norm_num [FALLBACK_POWER_THRESHOLD_W]),
   watchdog_hysteresis_room_recovery_amended.2.2 ⟨some 800, some 105, true⟩ 0
     (by norm_num [FALLBACK_POWER_THRESHOLD_W])⟩

/-- The heater-update handler never sets forcedZero. -/
theorem stateChange_forcedZero_mono (sp : Bool) (s : WatchdogState) (p : Option ℚ) :
    (Watchdog.stateChange sp s p).forcedZero = true → s.forcedZero = true := by
  simp only [Watchdog.stateChange]
  cases p with
  | none => exact fun h => h
  | some q =>
    dsimp only
    split_ifs with h
    · intro hc
      exact absurd hc (by simp)
    · exact fun h => h

/-- The roomZeroSince bookkeeping block never changes the stored heater
power. -/
theorem roomTrack_heaterPower (s : WatchdogState) (q now : ℚ) :
    (Watchdog.roomTrack s q now).heaterPower = s.heaterPower := by
  simp only [Watchdog.roomTrack]
  split_ifs with h
  · cases s.roomZeroSince <;> rfl
  · rfl

/-- The roomZeroSince bookkeeping block never sets forcedZero. -/
theorem roomTrack_forcedZero_mono (s : WatchdogState) (q now : ℚ) :
    (Watchdog.roomTrack s q now).forcedZero = true → s.forcedZero = true := by
  simp only [Watchdog.roomTrack]
  split_ifs with h
  · cases s.roomZeroSince <;> exact fun h => h
  · intro hc
    exact absurd hc (by simp)

/-- C1: forcedZero is set by a step only when, at that step, roomZeroSince
is present, the elapsed time since it reaches the 20 s window, and the
heater's last known power exceeds the 0.5 W threshold; and a heater
reading at or below the threshold clears forcedZero in that same step. -/
theorem watchdog_forcedZero_invariant :
    (∀ (s : WatchdogState) (e : WStep), s.forcedZero = false →
      (Watchdog.wstep true s e).forcedZero = true →
      ∃ t now, (Watchdog.wstep true s e).roomZeroSince = some t ∧
        WStep.nowTime e = some now ∧
        FALLBACK_ZERO_WINDOW_SEC ≤ now - t ∧
        ∃ hp, s.heaterPower = some hp ∧ FALLBACK_POWER_THRESHOLD_W < hp) ∧
    (∀ (s : WatchdogState) (q : ℚ), q ≤ FALLBACK_POWER_THRESHOLD_W →
      (Watchdog.wstep true s (WStep.heater (some q))).forcedZero = false) := by
  constructor
  · intro s e h0 h1
    cases e with
    | heater p =>
      exact absurd (stateChange_forcedZero_mono true s p h1) (by simp [h0])
    | room p now =>
      cases p with
      | none => exact absurd h1 (by simp [Watchdog.wstep, Watchdog.roomStateChange, h0])
      | some q =>
        have hfz1 : (Watchdog.roomTrack s q now).forcedZero = false := by
          cases hb : (Watchdog.roomTrack s q now).forcedZero with
          | false => rfl
          | true => exact absurd (roomTrack_forcedZero_mono s q now hb) (by simp [h0])
        simp only [Watchdog.wstep, Watchdog.roomStateChange] at h1 ⊢
        cases hrz : (Watchdog.roomTrack s q now).roomZeroSince with
        | none =>
          rw [Watchdog.roomTrigger, hrz] at h1
          exact absurd h1 (by simp [hfz1])
        | some t =>
          cases hhp : (Watchdog.roomTrack s q now).heaterPower with
          | none =>
            rw [Watchdog.roomTrigger, hrz, hhp] at h1
            exact absurd h1 (by simp [hfz1])
          | some hp =>
            rw [Watchdog.roomTrigger, hrz, hhp] at h1
            dsimp only at h1
            split_ifs at h1 with hg
            · refine ⟨t, now, ?_, rfl, hg.2.1, hp, ?_, hg.2.2.1⟩
              · rw [Watchdog.roomTrigger, hrz, hhp]
                dsimp only
                rw [if_pos hg]
              · rw [← roomTrack_heaterPower s q now, hhp]
            · exact absurd h1 (by simp [hfz1])
    | tick now =>
      simp only [Watchdog.wstep, Watchdog.checkTick, not_true, if_false] at h1 ⊢
      cases hrz : s.roomZeroSince with
      | none =>
        rw [hrz] at h1
        exact absurd h1 (by simp [h0])
      | some t =>
        cases hhp : s.heaterPower with
        | none =>
          rw [hrz] at h1
          rw [hhp] at h1
          exact absurd h1 (by simp [h0])
        | some hp =>
          rw [hrz, hhp] at h1
          dsimp only at h1
          split_ifs at h1 with hle hwin
          · exact absurd h1 (by simp [h0])
          · exact absurd h1 (by simp [h0])
          · rw [not_or] at hwin
            refine ⟨t, now, ?_, rfl, not_lt.mp hwin.1, hp, rfl, not_le.mp hle⟩
            dsimp only
            rw [if_neg hle, if_neg (by rw [not_or]; exact hwin)]
  · intro s q hq
    simp [Watchdog.wstep, Watchdog.stateChange, hq]

/-- C1 witness: a tick after the window with the heater stuck at 800 W
sets forcedZero with all the stated conditions, and a 0 W heater reading
clears it. -/
theorem watchdog_forcedZero_invariant_witness :
    (∃ t now,
      (Watchdog.wstep true ⟨some 800, some 100, false⟩ (WStep.tick 125)).roomZeroSince =
        some t ∧
      WStep.nowTime (WStep.tick 125) = some now ∧
      FALLBACK_ZERO_WINDOW_SEC ≤ now - t ∧
      ∃ hp, (⟨some 800, some 100, false⟩ : WatchdogState).heaterPower = some hp ∧
        FALLBACK_POWER_THRESHOLD_W < hp) ∧
    (Watchdog.wstep true ⟨some 800, some 100, false⟩ (WStep.heater (some 0))).forcedZero =
      false :=
  ⟨watchdog_forcedZero_invariant.1 ⟨some 800, some 100, false⟩ (WStep.tick 125) rfl
     (by norm_num [Watchdog.wstep, Watchdog.checkTick,
       FALLBACK_POWER_THRESHOLD_W, FALLBACK_ZERO_WINDOW_SEC]),
   watchdog_forcedZero_invariant.2 ⟨some 800, some 100, false⟩ 0
     (by norm_num [FALLBACK_POWER_THRESHOLD_W])⟩

end XComfort
